import Mathlib

/-!
Verification of the integration sequence execution engine of the
automatic-partner-integration backend.  The definitions below are shallow
embeddings of the Python services in src/backend/app/services
(integration_runner.py, sequence_service.py, integration_service.py,
transformer.py, runtime_executor.py) and of the sequence-save endpoint in
src/backend/app/api/v1/endpoints/lenders.py.  Python dicts are modelled as
association lists that preserve insertion order; Python None and JSON null
are both modelled by `Json.null`; raised exceptions are modelled with
`Except`.  Outbound HTTP calls are the only operations treated as
external: each model takes an oracle that fixes the outcome every call
would have.
-/

namespace PartnerIntegration

/-- JSON-like values, the data shape threaded through the engine. -/
inductive Json where
  | null
  | bool (b : Bool)
  | num (n : Int)
  | str (s : String)
  | arr (xs : List Json)
  | obj (fields : List (String × Json))
deriving Repr

/-- Truth test distinguishing null (Python None) from every other value. -/
def Json.isNull : Json → Bool
  | Json.null => true
  | _ => false

mutual

/-- Structural equality of JSON values, the model of Python `==` between
response values and condition values. -/
def jsonEq : Json → Json → Bool
  | Json.null, Json.null => true
  | Json.bool a, Json.bool b => a == b
  | Json.num a, Json.num b => a == b
  | Json.str a, Json.str b => a == b
  | Json.arr xs, Json.arr ys => jsonEqList xs ys
  | Json.obj fs, Json.obj gs => jsonEqFields fs gs
  | _, _ => false

def jsonEqList : List Json → List Json → Bool
  | [], [] => true
  | x :: xs, y :: ys => jsonEq x y && jsonEqList xs ys
  | _, _ => false

def jsonEqFields : List (String × Json) → List (String × Json) → Bool
  | [], [] => true
  | (k, x) :: xs, (k2, y) :: ys => k == k2 && jsonEq x y && jsonEqFields xs ys
  | _, _ => false

end

/-- First-match lookup in an association list, the model of Python
`d[k]` and `d.get(k)` on dicts. -/
def alookup {α : Type} : List (String × α) → String → Option α
  | [], _ => none
  | (k, v) :: rest, key => if k = key then some v else alookup rest key

/-- Model of Python `d[k] = v`: replace the value of an existing key in
place, otherwise append the new binding. -/
def ainsert {α : Type} : List (String × α) → String → α → List (String × α)
  | [], key, v => [(key, v)]
  | (k, w) :: rest, key, v =>
      if k = key then (k, v) :: rest else (k, w) :: ainsert rest key v

/-- Model of Python `dst.update(src)` and of dict merges `{**dst, **src}`. -/
def aupdate {α : Type} (dst src : List (String × α)) : List (String × α) :=
  src.foldl (fun acc kv => ainsert acc kv.1 kv.2) dst

/-- Lookup in an association list with natural-number keys (used for the
condition configuration, whose Python keys are `str(step.id)`; the model
keys it by the step id itself). -/
def nlookup {α : Type} : List (Nat × α) → Nat → Option α
  | [], _ => none
  | (k, v) :: rest, key => if k = key then some v else nlookup rest key

/-- Split of a character list on a separator, keeping empty segments, the
model of Python `s.split('.')` (a kernel-reducible replacement for
`String.splitOn`). -/
def splitOnCharAux (sep : Char) : List Char → List Char → List String
  | [], acc => [String.mk acc.reverse]
  | c :: rest, acc =>
      if c = sep then String.mk acc.reverse :: splitOnCharAux sep rest []
      else splitOnCharAux sep rest (c :: acc)

/-- Model of Python `s.split('.')`. -/
def splitOnDot (s : String) : List String :=
  splitOnCharAux '.' s.data []

/-- Model of the `p.startswith('$.')` strip in the path accessor: drop a
leading `$.` when present. -/
def stripDollar (s : String) : List Char :=
  match s.data with
  | '$' :: '.' :: rest => rest
  | cs => cs

/-- Path normalisation used by `_get_from_path` and `_set_to_path` in
integration_runner.py: strip an optional leading `$.`, split on `.`,
drop empty segments. -/
def normSegs (path : String) : List String :=
  (splitOnCharAux '.' (stripDollar path) []).filter (fun s => s ≠ "")

/-- Segment walk of `_get_from_path`: at each segment require a dict that
contains the key, otherwise the result is null (Python None). -/
def getSegs : Json → List String → Json
  | cur, [] => cur
  | Json.obj fs, s :: rest =>
      match alookup fs s with
      | some v => getSegs v rest
      | none => Json.null
  | _, _ :: _ => Json.null

/-- Embedding of `_get_from_path` (integration_runner.py lines 29-43).
The root is the top-level dict the runner passes in. -/
def getFromPath (data : List (String × Json)) (path : String) : Json :=
  if path = "" then Json.null
  else getSegs (Json.obj data) (normSegs path)

/-- Segment walk of `_set_to_path`: walk all but the last segment,
replacing a missing or non-dict intermediate with a fresh dict, then bind
the last segment.  Zero segments leave the root unchanged. -/
def setSegs (fs : List (String × Json)) : List String → Json → List (String × Json)
  | [], _ => fs
  | [s], v => ainsert fs s v
  | s :: s2 :: rest, v =>
      let child : List (String × Json) :=
        match alookup fs s with
        | some (Json.obj g) => g
        | _ => []
      ainsert fs s (Json.obj (setSegs child (s2 :: rest) v))

/-- Embedding of `_set_to_path` (integration_runner.py lines 46-59),
written as a pure function returning the updated root. -/
def setToPath (data : List (String × Json)) (path : String) (v : Json) :
    List (String × Json) :=
  if path = "" then data else setSegs data (normSegs path) v

/-! ## Step executor retry loop (integration_runner.py, `_execute_step`) -/

/-- Outcome of one underlying HTTP call attempt: either a response was
obtained (any status, body already parsed) or a network-level exception
was raised. -/
inductive AttemptOutcome where
  | resp (statusCode : Nat) (body : Json)
  | netErr (msg : String)

/-- One persisted IntegrationLog row, reduced to the fields the claims
talk about. -/
structure LogRecord where
  responseStatus : Option Nat
  responseData : Json

/-- The dict `_execute_step` returns: the success shape carries the status
code and the extracted outputs, the failure shape carries the error
message of the last exception. -/
inductive StepResult where
  | ok (statusCode : Nat) (extracted : List (String × Json))
  | fail (error : String)

/-- Trace of one `_execute_step` call: how many HTTP calls were made,
which log rows were persisted, which sleeps were performed, and the
returned result. -/
structure StepTrace where
  attempts : Nat
  logs : List LogRecord
  sleeps : List Nat
  result : StepResult

/-- Output extraction of `_execute_step` (lines 238-243): for each
declared output field path, `_get_from_path` against the parsed body
(non-dict bodies are replaced by an empty dict) and record non-null
values keyed by the original path string. -/
def extractOutputs (outputFields : List String) (data : Json) : List (String × Json) :=
  outputFields.foldl
    (fun acc out =>
      let baseFields := match data with
        | Json.obj fs => fs
        | _ => []
      let val := getFromPath baseFields out
      if val.isNull then acc else ainsert acc out val)
    []

/-- The single log row persisted for an attempt outcome (lines 246-258 for
a response, lines 273-284 for a final network failure). -/
def mkLogOf : AttemptOutcome → LogRecord
  | AttemptOutcome.resp st body => ⟨some st, body⟩
  | AttemptOutcome.netErr m => ⟨none, Json.obj [("error", Json.str m)]⟩

/-- The `while attempt <= retries` loop of `_execute_step` (lines
218-294).  The oracle gives the outcome of the HTTP call at each attempt
index; `remaining` is `retries - attempt`.  A response of any status ends
the loop at once; a network exception either ends the loop (no retries
left, error log) or sleeps for the fixed delay and tries again.  The log
sink is treated as reliable, matching the spec. -/
def stepLoop (oracle : Nat → AttemptOutcome) (outputFields : List String)
    (delay : Nat) : Nat → Nat → StepTrace
  | attempt, 0 =>
      match oracle attempt with
      | AttemptOutcome.resp st body =>
          { attempts := 1
            logs := [mkLogOf (AttemptOutcome.resp st body)]
            sleeps := []
            result := StepResult.ok st (extractOutputs outputFields body) }
      | AttemptOutcome.netErr m =>
          { attempts := 1
            logs := [mkLogOf (AttemptOutcome.netErr m)]
            sleeps := []
            result := StepResult.fail m }
  | attempt, r + 1 =>
      match oracle attempt with
      | AttemptOutcome.resp st body =>
          { attempts := 1
            logs := [mkLogOf (AttemptOutcome.resp st body)]
            sleeps := []
            result := StepResult.ok st (extractOutputs outputFields body) }
      | AttemptOutcome.netErr _ =>
          let t := stepLoop oracle outputFields delay (attempt + 1) r
          { attempts := t.attempts + 1
            logs := t.logs
            sleeps := delay :: t.sleeps
            result := t.result }

/-- Entry point of the retry portion of `_execute_step`: start at attempt
0 with `retries = max(0, step.retry_count or 0)` retries left. -/
def executeStepRetry (oracle : Nat → AttemptOutcome) (outputFields : List String)
    (retries delay : Nat) : StepTrace :=
  stepLoop oracle outputFields delay 0 retries

/-! ## Sequential run loop of IntegrationRunner.run (integration_runner.py) -/

/-- The step configuration fields `IntegrationRunner` reads. -/
structure RunnerStep where
  id : Nat
  dependsOnFields : List (String × String)
  outputFields : List String
  template : Option (List (String × Json))
  retryCount : Nat
  retryDelaySeconds : Nat

/-- Sequence configuration fields read by `IntegrationRunner.run`.
`stopOnError` is carried because the sequence row stores it; the run loop
below never reads it, faithfully to the source. -/
structure RunnerSequence where
  executionMode : String
  stopOnError : Bool

/-- The field mapping columns `IntegrationRunner._execute_step` reads. -/
structure RunnerMapping where
  sourceField : String
  targetField : String
  defaultValue : Option Json
  fallbackValue : Option Json

/-- Dependency injection into the request body (lines 157-161): each
`(dest, source)` pair pulls `previous_outputs.get(source)` and, when not
None, sets it into the body at the path `dest`. -/
def buildDependencies (dependsOn : List (String × String))
    (previousOutputs : List (String × Json)) : List (String × Json) :=
  dependsOn.foldl
    (fun body kv =>
      let value := (alookup previousOutputs kv.2).getD Json.null
      if value.isNull then body else setToPath body kv.1 value)
    []

/-- Field mapping application (lines 163-171): source extraction from the
input payload, else default value, else fallback value; a non-null result
with a non-empty target field is set into the body. -/
def applyFieldMappings (mappings : List RunnerMapping)
    (inputPayload : List (String × Json)) (body0 : List (String × Json)) :
    List (String × Json) :=
  mappings.foldl
    (fun body m =>
      let v0 := getFromPath inputPayload m.sourceField
      let v1 := if v0.isNull then (m.defaultValue).getD v0 else v0
      let v2 := if v1.isNull then (m.fallbackValue).getD v1 else v1
      if v2.isNull = false ∧ m.targetField ≠ "" then setToPath body m.targetField v2
      else body)
    body0

/-- Body template merge (lines 181-186): start from the template dict,
then write every body entry over it; object values get one level of
nested merge with the template value at the same key. -/
def mergeTemplate (template : Option (List (String × Json)))
    (requestBody : List (String × Json)) : List (String × Json) :=
  match template with
  | none => requestBody
  | some t =>
      requestBody.foldl
        (fun merged kv =>
          match kv.2 with
          | Json.obj sub =>
              let base : List (String × Json) :=
                match alookup t kv.1 with
                | some (Json.obj g) => g
                | _ => []
              ainsert merged kv.1 (Json.obj (aupdate base sub))
          | v => ainsert merged kv.1 v)
        t

/-- Request body assembly of `_execute_step` (lines 154-186):
dependencies, then field mappings, then the optional template merge. -/
def runnerStepBody (step : RunnerStep) (mappings : List RunnerMapping)
    (inputPayload : List (String × Json)) (previousOutputs : List (String × Json)) :
    List (String × Json) :=
  mergeTemplate step.template
    (applyFieldMappings mappings inputPayload
      (buildDependencies step.dependsOnFields previousOutputs))

/-- Output merge of `IntegrationRunner.run` (lines 102-104): the update of
`previous_outputs` runs whenever the result dict carries a non-empty
`extracted_outputs`, with no status test; the failure dict has no such
key. -/
def runnerMergePrev (prev : List (String × Json)) : StepResult → List (String × Json)
  | StepResult.ok _ extracted => if extracted.isEmpty then prev else aupdate prev extracted
  | StepResult.fail _ => prev

/-- One entry of the step result list of `IntegrationRunner.run`. -/
structure RunnerEntry where
  stepId : Nat
  requestBody : List (String × Json)
  result : StepResult

/-- The sequential loop of `IntegrationRunner.run` (lines 96-104): every
step executes in order; `stop_on_error` is never consulted.  The oracle
maps a step position and an attempt index to the HTTP outcome. -/
def runnerSeqLoop (oracle : Nat → Nat → AttemptOutcome)
    (mappings : List RunnerMapping) (inputPayload : List (String × Json)) :
    List RunnerStep → Nat → List (String × Json) → List RunnerEntry
  | [], _, _ => []
  | s :: rest, i, prev =>
      let body := runnerStepBody s mappings inputPayload prev
      let t := executeStepRetry (oracle i) s.outputFields s.retryCount s.retryDelaySeconds
      ⟨s.id, body, t.result⟩ ::
        runnerSeqLoop oracle mappings inputPayload rest (i + 1) (runnerMergePrev prev t.result)

/-- The mode dispatch of `IntegrationRunner.run` (lines 82-104): parallel
mode runs every step against the initial empty `previous_outputs`; any
other mode takes the sequential loop. -/
def runnerRun (sequence : RunnerSequence) (oracle : Nat → Nat → AttemptOutcome)
    (steps : List RunnerStep) (mappings : List RunnerMapping)
    (inputPayload : List (String × Json)) : List RunnerEntry :=
  if sequence.executionMode = "parallel" then
    steps.enum.map
      (fun p =>
        ⟨p.2.id, runnerStepBody p.2 mappings inputPayload [],
          (executeStepRetry (oracle p.1) p.2.outputFields p.2.retryCount p.2.retryDelaySeconds).result⟩)
  else runnerSeqLoop oracle mappings inputPayload steps 0 []

/-! ## Field transformer (transformer.py) -/

/-- Removal of leading whitespace from a character list. -/
def dropLeadingWs : List Char → List Char
  | [] => []
  | c :: rest => if c.isWhitespace then dropLeadingWs rest else c :: rest

/-- Model of Python `s.strip()`. -/
def pyStrip (s : String) : String :=
  String.mk ((dropLeadingWs (dropLeadingWs s.data).reverse).reverse)

/-- Model of Python `s.split()` with no separator: split on runs of
whitespace, never producing empty segments; `s.strip().split()` equals
`s.split()`. -/
def splitWsAux : List Char → List Char → List String
  | [], [] => []
  | [], acc => [String.mk acc.reverse]
  | c :: rest, acc =>
      if c.isWhitespace then
        match acc with
        | [] => splitWsAux rest []
        | _ => String.mk acc.reverse :: splitWsAux rest []
      else splitWsAux rest (c :: acc)

/-- Model of `value.strip().split()` in `_split_name`. -/
def pySplitWs (s : String) : List String :=
  splitWsAux s.data []

/-- Single-space join of Python `' '.join(parts)`. -/
def joinSpace : List String → String
  | [] => ""
  | [s] => s
  | s :: rest => s ++ " " ++ joinSpace rest

/-- Embedding of `DataTransformer._split_name` (transformer.py lines
203-218).  The guard `if not value` only catches the empty string; a
whitespace-only string reaches `parts = value.strip().split()` with zero
tokens and the final branch evaluates `parts[0]`, raising IndexError. -/
def splitName (value : String) : Except String (List (String × String)) :=
  if value = "" then Except.ok []
  else
    match pySplitWs value with
    | [] => Except.error "IndexError: list index out of range"
    | [p] => Except.ok [("first_name", p), ("last_name", "")]
    | [p, q] => Except.ok [("first_name", p), ("last_name", q)]
    | p :: rest => Except.ok [("first_name", p), ("last_name", joinSpace rest)]

/-- Transformation kinds exercised by the claims; the dispatch table of
transformer.py also holds format_phone, format_date, format_currency,
object_mapping, array_format and conditional, which no claim touches. -/
inductive TType where
  | tnone
  | splitNameT
  | customT

/-- Embedding of `DataTransformer._apply_transformation` restricted to the
claim-relevant kinds.  A None value short-circuits to None before the
dispatch.  For split_name, Python falsy non-strings (0, False, empty
containers) return an empty dict, and other non-strings raise
AttributeError on `.strip()`. -/
def applyTransformation (value : Json) (ttype : TType) : Except String Json :=
  match value with
  | Json.null => Except.ok Json.null
  | _ =>
      match ttype with
      | TType.tnone => Except.ok value
      | TType.customT => Except.ok value
      | TType.splitNameT =>
          match value with
          | Json.str s =>
              (splitName s).map
                (fun fields => Json.obj (fields.map (fun kv => (kv.1, Json.str kv.2))))
          | Json.bool false => Except.ok (Json.obj [])
          | Json.num 0 => Except.ok (Json.obj [])
          | Json.arr [] => Except.ok (Json.obj [])
          | Json.obj [] => Except.ok (Json.obj [])
          | _ => Except.error "AttributeError: strip"

/-- The field mapping columns `DataTransformer.transform_data` reads.
Validation rules are not modelled (none of the claims configures them),
so `_validate_value` reduces to the required-and-None test. -/
structure TMapping where
  isActive : Bool
  sourceField : String
  sourceFieldPath : Option String
  transformationType : TType
  isRequired : Bool
  fallbackValue : Option Json
  targetField : String
  targetFieldPath : Option String

/-- Embedding of `DataTransformer._extract_value`: a truthy path walks the
raw dot-split segments (no `$.` strip, no empty-segment drop here),
otherwise a direct `data.get(field)`. -/
def extractValue (data : List (String × Json)) (field : String)
    (path : Option String) : Json :=
  match path with
  | some p =>
      if p = "" then (alookup data field).getD Json.null
      else getSegs (Json.obj data) (splitOnDot p)
  | none => (alookup data field).getD Json.null

/-- Embedding of `DataTransformer._validate_value` with no validation
rules configured: only the required-field None test remains. -/
def validateValue (value : Json) (m : TMapping) : Bool :=
  !(value.isNull && m.isRequired)

/-- Segment walk of `DataTransformer._set_value` for a truthy path: a
missing intermediate key is created as a dict, an existing dict is
entered, and an existing non-dict intermediate raises TypeError in
Python (membership or subscript on a non-dict). -/
def setValueSegs (fs : List (String × Json)) :
    List String → Json → Except String (List (String × Json))
  | [], _ => Except.ok fs
  | [k], v => Except.ok (ainsert fs k v)
  | k :: k2 :: rest, v =>
      match alookup fs k with
      | none =>
          (setValueSegs [] (k2 :: rest) v).map (fun inner => ainsert fs k (Json.obj inner))
      | some (Json.obj g) =>
          (setValueSegs g (k2 :: rest) v).map (fun inner => ainsert fs k (Json.obj inner))
      | some _ => Except.error "TypeError"

/-- Embedding of `DataTransformer._set_value`: a truthy path is walked by
`setValueSegs`, otherwise a direct `data[field] = value`. -/
def setValue (data : List (String × Json)) (field : String) (path : Option String)
    (v : Json) : Except String (List (String × Json)) :=
  match path with
  | some p =>
      if p = "" then Except.ok (ainsert data field v)
      else setValueSegs data (splitOnDot p) v
  | none => Except.ok (ainsert data field v)

/-- The mapping loop of `DataTransformer.transform_data` (transformer.py
lines 27-73).  Any exception below propagates: the surrounding
try/except logs and re-raises.  An invalid value falls back to the
fallback value when present, is skipped when the mapping is required,
and is written as-is otherwise. -/
def transformDataLoop (sourceData : List (String × Json)) :
    List TMapping → List (String × Json) → Except String (List (String × Json))
  | [], acc => Except.ok acc
  | m :: rest, acc =>
      if m.isActive = false then transformDataLoop sourceData rest acc
      else
        let sourceValue := extractValue sourceData m.sourceField m.sourceFieldPath
        match applyTransformation sourceValue m.transformationType with
        | Except.error e => Except.error e
        | Except.ok tv =>
            let chosen : Option Json :=
              if validateValue tv m then some tv
              else
                match m.fallbackValue with
                | some fb => some fb
                | none => if m.isRequired then none else some tv
            match chosen with
            | none => transformDataLoop sourceData rest acc
            | some v =>
                match setValue acc m.targetField m.targetFieldPath v with
                | Except.error e => Except.error e
                | Except.ok acc2 => transformDataLoop sourceData rest acc2

/-- Embedding of `DataTransformer.transform_data`. -/
def transformData (sourceData : List (String × Json)) (mappings : List TMapping) :
    Except String (List (String × Json)) :=
  transformDataLoop sourceData mappings []

/-! ## Sequence orchestrator (sequence_service.py) -/

/-- Outcome of `IntegrationService._make_api_call` for one step: either a
response of some status with parsed data, or a network-level exception
captured inside `_make_api_call`. -/
inductive SvcOutcome where
  | httpResp (statusCode : Nat) (data : Json)
  | netFail (error : String)

/-- The success flag `_make_api_call` computes (integration_service.py
lines 304-329): `status_code < 400` for a response, false for a captured
exception. -/
def svcSuccess : SvcOutcome → Bool
  | SvcOutcome.httpResp st _ => decide (st < 400)
  | SvcOutcome.netFail _ => false

/-- The error field of the `_make_api_call` result dict, present exactly
when the call did not succeed. -/
def svcError : SvcOutcome → Option String
  | SvcOutcome.httpResp st _ => if st < 400 then none else some "http error"
  | SvcOutcome.netFail e => some e

/-- The step configuration fields `SequenceService` reads. -/
structure SvcStep where
  id : Nat
  dependsOnFields : List (String × String)
  outputFields : List String

/-- Dependency injection of `_execute_sequential` (sequence_service.py
lines 87-90): for each `(field_name, source_step)` pair, copy the
top-level key `source_step` of the accumulated data into the transformed
data under `field_name` when the key is present. -/
def svcAddDependencies (dependsOn : List (String × String))
    (currentData transformedData : List (String × Json)) : List (String × Json) :=
  dependsOn.foldl
    (fun td kv =>
      match alookup currentData kv.2 with
      | some v => ainsert td kv.1 v
      | none => td)
    transformedData

/-- Output merge of `_execute_sequential` (lines 98-104) and of
`_execute_conditional` (lines 257-261): only when the step result has a
truthy success flag and the step declares output fields are top-level
keys of the response data copied into the accumulated data.  The model
covers dict-shaped response data; key membership on other shapes is not
exercised by a successful JSON response. -/
def svcExtractMerge (outputFields : List String) (outcome : SvcOutcome)
    (currentData : List (String × Json)) : List (String × Json) :=
  if outputFields.isEmpty then currentData
  else if svcSuccess outcome then
    match outcome with
    | SvcOutcome.httpResp _ (Json.obj fs) =>
        outputFields.foldl
          (fun cd f =>
            match alookup fs f with
            | some v => ainsert cd f v
            | none => cd)
          currentData
    | _ => currentData
  else currentData

/-- One entry of the `results['steps']` list built by the sequential
loop.  The transformed input that was sent is kept so that claims can
talk about what a request reflected. -/
structure SvcEntry where
  stepId : Nat
  inputData : List (String × Json)
  success : Bool
  error : Option String

/-- The sequential loop of `SequenceService._execute_sequential`
(sequence_service.py lines 80-141).  Per step: transform the accumulated
data (a raised transformer exception takes the except branch: the step is
recorded as failed and the loop honours stop_on_error), inject
dependencies, call the API via the oracle, merge outputs of successful
steps, and break when the step failed and stop_on_error is set.  Returns
the step entries and the final accumulated data. -/
def svcSeqLoop (oracle : Nat → SvcOutcome) (mappings : List TMapping)
    (stopOnError : Bool) :
    List SvcStep → Nat → List (String × Json) →
      List SvcEntry × List (String × Json)
  | [], _, data => ([], data)
  | s :: rest, i, data =>
      match transformData data mappings with
      | Except.error e =>
          let entry : SvcEntry := ⟨s.id, [], false, some e⟩
          if stopOnError then ([entry], data)
          else
            let t := svcSeqLoop oracle mappings stopOnError rest (i + 1) data
            (entry :: t.1, t.2)
      | Except.ok td0 =>
          let td := svcAddDependencies s.dependsOnFields data td0
          let outcome := oracle i
          let data2 := svcExtractMerge s.outputFields outcome data
          let entry : SvcEntry := ⟨s.id, td, svcSuccess outcome, svcError outcome⟩
          if svcSuccess outcome = false ∧ stopOnError then ([entry], data2)
          else
            let t := svcSeqLoop oracle mappings stopOnError rest (i + 1) data2
            (entry :: t.1, t.2)

/-- Condition predicates of `SequenceService._should_execute_step`
(sequence_service.py lines 332-363).  The numeric comparisons carry a
numeric configured value, matching the isinstance guard; a condition dict
with an unrecognized type matches nothing in the chain and passes. -/
inductive Cond where
  | eqc (value : Json)
  | neqc (value : Json)
  | existsc
  | gtc (value : Int)
  | ltc (value : Int)
  | otherc

/-- One predicate evaluation against the field value pulled from the
accumulated data (missing key gives None). -/
def condHolds (cond : Cond) (fieldValue : Json) : Bool :=
  match cond with
  | Cond.eqc v => jsonEq fieldValue v
  | Cond.neqc v => !jsonEq fieldValue v
  | Cond.existsc =>
      match fieldValue with
      | Json.null => false
      | Json.str s => s ≠ ""
      | _ => true
  | Cond.gtc v =>
      match fieldValue with
      | Json.num n => decide (v < n)
      | _ => false
  | Cond.ltc v =>
      match fieldValue with
      | Json.num n => decide (n < v)
      | _ => false
  | Cond.otherc => true

/-- Embedding of `SequenceService._should_execute_step`: the condition
config is keyed by step id (Python keys it by `str(step.id)`); an absent
or empty entry executes by default, otherwise every listed field
condition must hold. -/
def shouldExecuteStep (s : SvcStep) (currentData : List (String × Json))
    (conditionConfig : List (Nat × List (String × Cond))) : Bool :=
  let stepConditions := (nlookup conditionConfig s.id).getD []
  if stepConditions.isEmpty then true
  else
    stepConditions.all
      (fun fc => condHolds fc.2 ((alookup currentData fc.1).getD Json.null))

/-- One entry of the `results['steps']` list built by the conditional
loop.  A skipped step is recorded with `skipped := true`, the reason
string, no success flag and zero HTTP calls. -/
structure CondEntry where
  stepId : Nat
  skipped : Bool
  reason : Option String
  success : Option Bool
  error : Option String
  httpCalls : Nat

/-- The conditional loop of `SequenceService._execute_conditional`
(sequence_service.py lines 229-296).  A step whose conditions fail is
recorded as skipped and the loop continues with the same accumulated
data; an executed step follows the sequential procedure including the
stop_on_error break. -/
def svcCondLoop (oracle : Nat → SvcOutcome) (mappings : List TMapping)
    (conditionConfig : List (Nat × List (String × Cond))) (stopOnError : Bool) :
    List SvcStep → Nat → List (String × Json) →
      List CondEntry × List (String × Json)
  | [], _, data => ([], data)
  | s :: rest, i, data =>
      if shouldExecuteStep s data conditionConfig then
        match transformData data mappings with
        | Except.error e =>
            let entry : CondEntry := ⟨s.id, false, none, some false, some e, 0⟩
            if stopOnError then ([entry], data)
            else
              let t := svcCondLoop oracle mappings conditionConfig stopOnError rest (i + 1) data
              (entry :: t.1, t.2)
        | Except.ok _ =>
            let outcome := oracle i
            let data2 := svcExtractMerge s.outputFields outcome data
            let entry : CondEntry :=
              ⟨s.id, false, none, some (svcSuccess outcome), svcError outcome, 1⟩
            if svcSuccess outcome = false ∧ stopOnError then ([entry], data2)
            else
              let t := svcCondLoop oracle mappings conditionConfig stopOnError rest (i + 1) data2
              (entry :: t.1, t.2)
      else
        let t := svcCondLoop oracle mappings conditionConfig stopOnError rest (i + 1) data
        (⟨s.id, true, some "Condition not met", none, none, 0⟩ :: t.1, t.2)

/-! ## Authentication headers (integration_service.py and integration_runner.py) -/

/-- UTF-8 encoding of one character, byte values as naturals. -/
def utf8Char (c : Char) : List Nat :=
  let n := c.toNat
  if n < 0x80 then [n]
  else if n < 0x800 then [0xC0 + n / 0x40, 0x80 + n % 0x40]
  else if n < 0x10000 then
    [0xE0 + n / 0x1000, 0x80 + (n / 0x40) % 0x40, 0x80 + n % 0x40]
  else
    [0xF0 + n / 0x40000, 0x80 + (n / 0x1000) % 0x40, 0x80 + (n / 0x40) % 0x40,
      0x80 + n % 0x40]

/-- Model of Python `s.encode()`. -/
def utf8Bytes (s : String) : List Nat :=
  s.data.foldr (fun c acc => utf8Char c ++ acc) []

/-- The standard base64 alphabet. -/
def b64Alphabet : List Char :=
  "ABCDEFGHIJKLMNOPQRSTUVWXYZabcdefghijklmnopqrstuvwxyz0123456789+/".data

/-- One base64 digit. -/
def b64Char (n : Nat) : Char :=
  b64Alphabet.getD n 'A'

/-- Model of Python `base64.b64encode` over a byte list, with padding. -/
def base64Encode : List Nat → String
  | [] => ""
  | [a] => String.mk [b64Char (a / 4), b64Char (a % 4 * 16)] ++ "=="
  | [a, b] =>
      String.mk [b64Char (a / 4), b64Char (a % 4 * 16 + b / 16), b64Char (b % 16 * 4)] ++ "="
  | a :: b :: c :: rest =>
      String.mk
        [b64Char (a / 4), b64Char (a % 4 * 16 + b / 16),
          b64Char (b % 16 * 4 + c / 64), b64Char (c % 64)] ++
        base64Encode rest

/-- Interpolation of a possibly-absent config entry inside a Python
f-string: an absent key reads as the string None. -/
def pyOptStr (o : Option String) : String :=
  o.getD "None"

/-- Embedding of `IntegrationService._get_auth_headers`
(integration_service.py lines 245-265).  The auth type is compared by its
enum value string.  For api_key an absent key value becomes a None dict
value, modelled by the string None; no claim exercises that corner. -/
def svcGetAuthHeaders (authType : String) (authConfig : List (String × String)) :
    List (String × String) :=
  if authType = "api_key" then
    [((alookup authConfig "header_name").getD "X-API-Key",
      pyOptStr (alookup authConfig "api_key"))]
  else if authType = "bearer_token" then
    [("Authorization", "Bearer " ++ pyOptStr (alookup authConfig "token"))]
  else if authType = "basic_auth" then
    [("Authorization",
      "Basic " ++
        base64Encode
          (utf8Bytes
            (pyOptStr (alookup authConfig "username") ++ ":" ++
              pyOptStr (alookup authConfig "password"))))]
  else []

/-- Model of the Python `a or b` chain over optional config strings: an
empty string is falsy and falls through. -/
def pyOrStr (a b : Option String) : Option String :=
  match a with
  | some s => if s = "" then b else some s
  | none => b

/-- Embedding of the header and auth assembly of
`IntegrationRunner._execute_step` (integration_runner.py lines 129-152):
Content-Type then the step request headers, then the auth dispatch, which
covers bearer_token/bearer, api_key (header location) and none.  There is
no basic_auth branch: such a step falls through with no Authorization
header. -/
def runnerBuildHeaders (requestHeaders : List (String × String)) (authType : String)
    (authCfg : List (String × String)) : List (String × String) :=
  let headers := aupdate [("Content-Type", "application/json")] requestHeaders
  if authType = "bearer_token" ∨ authType = "bearer" then
    match pyOrStr (alookup authCfg "token") (alookup authCfg "access_token") with
    | some token =>
        if token = "" then headers
        else ainsert headers "Authorization" ("Bearer " ++ token)
    | none => headers
  else if authType = "api_key" then
    let keyName := (alookup authCfg "key_name").getD "X-API-Key"
    let keyLocation := (alookup authCfg "key_location").getD "header"
    match pyOrStr (alookup authCfg "key_value") (alookup authCfg "api_key") with
    | some kv =>
        if kv ≠ "" ∧ keyLocation = "header" then ainsert headers keyName kv
        else headers
    | none => headers
  else headers

/-! ## Sequence save endpoint (lenders.py, create_integration_sequence) -/

/-- One step dict of the request payload, restricted to the fields the
validation and the claims read. -/
structure SeqPayloadStep where
  dependsOnFields : List (String × String)
  sequenceOrder : Option Nat

/-- The request payload fields the endpoint validation reads. -/
structure SeqPayload where
  name : Option String
  executionMode : Option String
  steps : Option (List SeqPayloadStep)

/-- One stored Integration row created for a payload step. -/
structure SavedStep where
  dependsOnFields : List (String × String)
  sequenceOrder : Nat

/-- The stored sequence produced by a successful save. -/
structure SavedSequence where
  name : String
  executionMode : String
  steps : List SavedStep

/-- Embedding of the validation and persistence of
`create_integration_sequence` (lenders.py lines 765-839).  The only
checks are: non-empty stripped name, non-empty step list, and execution
mode among sequential, parallel, conditional.  Every step is stored with
its `depends_on_fields` as given, whatever the execution mode. -/
def createIntegrationSequence (payload : SeqPayload) :
    Except (Nat × String) SavedSequence :=
  let name := pyStrip ((payload.name).getD "")
  if name = "" then Except.error (400, "Sequence name is required")
  else
    let steps := (payload.steps).getD []
    if steps.isEmpty then Except.error (400, "At least one step is required")
    else
      let executionMode := (payload.executionMode).getD "sequential"
      if executionMode ≠ "sequential" ∧ executionMode ≠ "parallel" ∧
          executionMode ≠ "conditional" then
        Except.error (400, "Invalid execution_mode")
      else
        Except.ok
          { name := name
            executionMode := executionMode
            steps :=
              steps.enum.map
                (fun p =>
                  { dependsOnFields := p.2.dependsOnFields
                    sequenceOrder := (p.2.sequenceOrder).getD (p.1 + 1) }) }

/-! ## Runtime dispatcher (runtime_executor.py, execute_step) -/

/-- A deployed API record, restricted to what `execute_step` reads. -/
structure DeployedApiR where
  status : String

/-- Outcome of one internal stage that may raise. -/
inductive StageOutcome (α : Type) where
  | ok (a : α)
  | raises (msg : String)

/-- The response dict `RuntimeExecutor.execute_step` returns. -/
structure RuntimeResponse where
  success : Bool
  error : Option String
  result : Option Json

/-- Embedding of `RuntimeExecutor.execute_step` (runtime_executor.py lines
24-81).  The lookup, the field mapping stage and the two metric updates
are modelled by their outcomes; `_execute_step_logic` never raises (its
HTTP helper catches internally) and yields `logicResult`.  The
success-path metrics update sits inside the try block: when it raises,
control reaches the outer except, the failure-path metrics update is
attempted with its own error swallowed, and the caller receives a failure
response carrying the metrics error. -/
def executeStepRuntime (lookupResult : Option DeployedApiR)
    (mappingOutcome : StageOutcome (List (String × Json))) (logicResult : Json)
    (metricsSuccessOutcome : StageOutcome Unit)
    (metricsFailureOutcome : StageOutcome Unit) : RuntimeResponse :=
  match lookupResult with
  | none => ⟨false, some "Deployed API not found", none⟩
  | some api =>
      if api.status ≠ "active" then
        let _ := metricsFailureOutcome
        ⟨false, some "Deployed API is not active", none⟩
      else
        match mappingOutcome with
        | StageOutcome.raises m =>
            let _ := metricsFailureOutcome
            ⟨false, some m, none⟩
        | StageOutcome.ok _ =>
            match metricsSuccessOutcome with
            | StageOutcome.ok _ => ⟨true, none, some logicResult⟩
            | StageOutcome.raises m =>
                let _ := metricsFailureOutcome
                ⟨false, some m, none⟩

/-! ## Concrete fixtures used by counterexamples and witnesses -/

/-- A sequential sequence configured with stop_on_error set. -/
def seqStopTrue : RunnerSequence := ⟨"sequential", true⟩

/-- A sequential sequence configured with stop_on_error unset. -/
def seqStopFalse : RunnerSequence := ⟨"sequential", false⟩

/-- Two plain steps with no dependencies or outputs. -/
def c1Steps : List RunnerStep := [⟨1, [], [], none, 0, 0⟩, ⟨2, [], [], none, 0, 0⟩]

/-- An endpoint behaviour where step 1 answers HTTP 500 and step 2
answers HTTP 200. -/
def c1Oracle : Nat → Nat → AttemptOutcome := fun i _ =>
  if i = 0 then AttemptOutcome.resp 500 (Json.obj [])
  else AttemptOutcome.resp 200 (Json.obj [])

/-- The same two steps for the SequenceService loop. -/
def c1SvcSteps : List SvcStep := [⟨1, [], []⟩, ⟨2, [], []⟩]

/-- The same endpoint behaviour for the SequenceService loop. -/
def c1SvcOracle : Nat → SvcOutcome := fun i =>
  if i = 0 then SvcOutcome.httpResp 500 Json.null
  else SvcOutcome.httpResp 200 Json.null

/-- An endpoint that fails with a network error on the first two attempts
and answers HTTP 200 on the third. -/
def failTwice : Nat → AttemptOutcome := fun n =>
  if n < 2 then AttemptOutcome.netErr "connection reset"
  else AttemptOutcome.resp 200 (Json.obj [("id", Json.num 7)])

/-- Step 1 declares the output field vid; step 2 depends on it under the
body key ref. -/
def c3Steps : List RunnerStep :=
  [⟨1, [], ["vid"], none, 0, 0⟩, ⟨2, [("ref", "vid")], [], none, 0, 0⟩]

/-- Step 1 answers HTTP 500 with a body that carries vid; step 2 answers
HTTP 200. -/
def c3Oracle : Nat → Nat → AttemptOutcome := fun i _ =>
  if i = 0 then AttemptOutcome.resp 500 (Json.obj [("vid", Json.num 7)])
  else AttemptOutcome.resp 200 (Json.obj [])

/-- A parallel-mode save payload whose single step declares a non-empty
depends_on_fields. -/
def c4Payload : SeqPayload :=
  ⟨some "Parallel Seq", some "parallel", some [⟨[("ref", "validation_id")], none⟩]⟩

/-- An active split_name field mapping from full_name to name. -/
def splitNameMapping : TMapping :=
  ⟨true, "full_name", none, TType.splitNameT, false, none, "name", none⟩

/-- Condition config demanding status equals approved for step 1. -/
def c7Cfg : List (Nat × List (String × Cond)) :=
  [(1, [("status", Cond.eqc (Json.str "approved"))])]

/-- The conditioned step. -/
def c7Step : SvcStep := ⟨1, [], []⟩

/-- Accumulated data where status is rejected, failing the condition. -/
def c7Data : List (String × Json) := [("status", Json.str "rejected")]

/-- An endpoint answering HTTP 200 for every conditional step. -/
def c7Oracle : Nat → SvcOutcome := fun _ => SvcOutcome.httpResp 200 Json.null

/-- A basic_auth config with username u and password p. -/
def basicCfg : List (String × String) := [("username", "u"), ("password", "p")]

end PartnerIntegration

namespace PartnerIntegration

/-! ## Helper lemmas -/

theorem alookup_ainsert {α : Type} (fs : List (String × α)) (k : String) (v : α) :
    alookup (ainsert fs k v) k = some v := by
  induction fs with
  | nil => simp [ainsert, alookup]
  | cons kv rest ih =>
      obtain ⟨k0, w⟩ := kv
      by_cases h : k0 = k
      · simp [ainsert, alookup, h]
      · simp [ainsert, alookup, h, ih]

theorem alookup_ainsert_ne {α : Type} (fs : List (String × α)) (key other : String)
    (v : α) (h : other ≠ key) : alookup (ainsert fs other v) key = alookup fs key := by
  induction fs with
  | nil => simp [ainsert, alookup, h]
  | cons kv rest ih =>
      obtain ⟨k0, w⟩ := kv
      by_cases h0 : k0 = other
      · subst h0
        simp [ainsert, alookup, h]
      · simp [ainsert, alookup, h0, ih]

theorem alookup_aupdate {α : Type} (dst src : List (String × α)) (key : String)
    (h : alookup src key = none) : alookup (aupdate dst src) key = alookup dst key := by
  induction src generalizing dst with
  | nil => rfl
  | cons kv rest ih =>
      obtain ⟨k0, w⟩ := kv
      by_cases h0 : k0 = key
      · subst h0
        simp [alookup] at h
      · have hrest : alookup rest key = none := by
          simpa [alookup, h0] using h
        have step : aupdate dst ((k0, w) :: rest) = aupdate (ainsert dst k0 w) rest := rfl
        rw [step, ih (ainsert dst k0 w) hrest, alookup_ainsert_ne dst key k0 w h0]

theorem getSegs_setSegs (segs : List String) (fs : List (String × Json))
    (v : Json) (h : segs ≠ []) :
    getSegs (Json.obj (setSegs fs segs v)) segs = v := by
  induction segs generalizing fs with
  | nil => exact absurd rfl h
  | cons s rest ih =>
      cases rest with
      | nil => simp [setSegs, getSegs, alookup_ainsert]
      | cons s2 rest2 =>
          simp only [setSegs, getSegs, alookup_ainsert]
          exact ih _ (by simp)

theorem getFromPath_congr (data : List (String × Json)) (p q : String)
    (hp : p ≠ "") (hq : q ≠ "") (h : normSegs p = normSegs q) :
    getFromPath data p = getFromPath data q := by
  unfold getFromPath
  rw [if_neg hp, if_neg hq, h]

theorem setToPath_congr (data : List (String × Json)) (v : Json) (p q : String)
    (hp : p ≠ "") (hq : q ≠ "") (h : normSegs p = normSegs q) :
    setToPath data p v = setToPath data q v := by
  unfold setToPath
  rw [if_neg hp, if_neg hq, h]

end PartnerIntegration

namespace PartnerIntegration

theorem stepLoop_spec (oracle : Nat → AttemptOutcome) (ofs : List String) (delay : Nat) :
    ∀ remaining attempt,
      1 ≤ (stepLoop oracle ofs delay attempt remaining).attempts ∧
      (stepLoop oracle ofs delay attempt remaining).attempts ≤ remaining + 1 ∧
      (stepLoop oracle ofs delay attempt remaining).logs =
        [mkLogOf (oracle (attempt + ((stepLoop oracle ofs delay attempt remaining).attempts - 1)))] ∧
      (∀ k, k + 1 < (stepLoop oracle ofs delay attempt remaining).attempts →
        ∃ m, oracle (attempt + k) = AttemptOutcome.netErr m) ∧
      (stepLoop oracle ofs delay attempt remaining).sleeps =
        List.replicate ((stepLoop oracle ofs delay attempt remaining).attempts - 1) delay := by
  intro remaining
  induction remaining with
  | zero =>
      intro attempt
      rcases h : oracle attempt with ⟨st, body⟩ | m
      · refine ⟨?_, ?_, ?_, ?_, ?_⟩
        · simp [stepLoop, h]
        · simp [stepLoop, h]
        · simp [stepLoop, h]
        · intro k hk
          simp [stepLoop, h] at hk
        · simp [stepLoop, h]
      · refine ⟨?_, ?_, ?_, ?_, ?_⟩
        · simp [stepLoop, h]
        · simp [stepLoop, h]
        · simp [stepLoop, h]
        · intro k hk
          simp [stepLoop, h] at hk
        · simp [stepLoop, h]
  | succ r ih =>
      intro attempt
      rcases h : oracle attempt with ⟨st, body⟩ | m
      · refine ⟨?_, ?_, ?_, ?_, ?_⟩
        · simp [stepLoop, h]
        · simp [stepLoop, h]
        · simp [stepLoop, h]
        · intro k hk
          simp [stepLoop, h] at hk
        · simp [stepLoop, h]
      · obtain ⟨ih1, ih2, ih3, ih4, ih5⟩ := ih (attempt + 1)
        refine ⟨?_, ?_, ?_, ?_, ?_⟩
        · simp [stepLoop, h]
        · simp only [stepLoop, h]
          omega
        · simp only [stepLoop, h]
          rw [ih3]
          have he : attempt + 1 + ((stepLoop oracle ofs delay (attempt + 1) r).attempts - 1) =
              attempt + ((stepLoop oracle ofs delay (attempt + 1) r).attempts + 1 - 1) := by
            omega
          rw [he]
        · simp only [stepLoop, h]
          intro k hk
          cases k with
          | zero => exact ⟨m, by simpa using h⟩
          | succ j =>
              have hj := ih4 j (by omega)
              have he : attempt + (j + 1) = attempt + 1 + j := by omega
              rw [he]
              exact hj
        · simp only [stepLoop, h]
          rw [ih5]
          have he : (stepLoop oracle ofs delay (attempt + 1) r).attempts + 1 - 1 =
              ((stepLoop oracle ofs delay (attempt + 1) r).attempts - 1) + 1 := by
            omega
          rw [he, List.replicate_succ]

/-- C2: the step executor retries only on a network-level exception and
never on an HTTP response of any status, makes at most retry_count
additional attempts, sleeps the fixed retry delay between consecutive
attempts, and persists exactly one IntegrationLog record, the one of the
final attempt. -/
theorem C2_retry_policy (oracle : Nat → AttemptOutcome) (outputFields : List String)
    (retries delay : Nat) :
    (executeStepRetry oracle outputFields retries delay).attempts ≤ retries + 1 ∧
    (executeStepRetry oracle outputFields retries delay).logs =
      [mkLogOf (oracle ((executeStepRetry oracle outputFields retries delay).attempts - 1))] ∧
    (∀ k, k + 1 < (executeStepRetry oracle outputFields retries delay).attempts →
      ∃ m, oracle k = AttemptOutcome.netErr m) ∧
    (∀ k st body, oracle k = AttemptOutcome.resp st body →
      (executeStepRetry oracle outputFields retries delay).attempts ≤ k + 1) ∧
    (executeStepRetry oracle outputFields retries delay).sleeps =
      List.replicate ((executeStepRetry oracle outputFields retries delay).attempts - 1) delay := by
  obtain ⟨h1, h2, h3, h4, h5⟩ := stepLoop_spec oracle outputFields delay retries 0
  simp only [executeStepRetry]
  refine ⟨h2, by simpa using h3, ?_, ?_, h5⟩
  · intro k hk
    simpa using h4 k hk
  · intro k st body hk
    by_contra hlt
    push_neg at hlt
    obtain ⟨m, hm⟩ := h4 k (by omega)
    rw [Nat.zero_add] at hm
    rw [hk] at hm
    exact AttemptOutcome.noConfusion hm

theorem C2_retry_policy_witness :
    (executeStepRetry failTwice ["id"] 2 0).attempts = 3 ∧
    (executeStepRetry failTwice ["id"] 2 0).attempts ≤ 2 + 1 ∧
    (executeStepRetry failTwice ["id"] 2 0).logs =
      [mkLogOf (failTwice ((executeStepRetry failTwice ["id"] 2 0).attempts - 1))] ∧
    (∃ m, failTwice 0 = AttemptOutcome.netErr m) := by
  refine ⟨rfl, (C2_retry_policy failTwice ["id"] 2 0).1,
    (C2_retry_policy failTwice ["id"] 2 0).2.1,
    (C2_retry_policy failTwice ["id"] 2 0).2.2.1 0 (by decide)⟩

end PartnerIntegration

namespace PartnerIntegration

/-- C1: in the sequential mode of IntegrationRunner.run, a sequence with
stop_on_error set still executes every step after a step whose HTTP
status is 500: the run loop never consults stop_on_error.  The
SequenceService sequential loop, by contrast, halts after the failed
step, matching the documented intent of the stop_on_error column. -/
theorem C1_runner_ignores_stop_on_error :
    (runnerRun seqStopTrue c1Oracle c1Steps [] []).map (fun e => e.stepId) = [1, 2] ∧
    ((runnerRun seqStopTrue c1Oracle c1Steps [] []).map (fun e =>
        match e.result with
        | StepResult.ok st _ => some st
        | StepResult.fail _ => none)) = [some 500, some 200] ∧
    (svcSeqLoop c1SvcOracle [] true c1SvcSteps 0 []).1.map (fun e => e.stepId) = [1] :=
  ⟨rfl, rfl, rfl⟩

/-- C3 counterexample: in IntegrationRunner.run, step 1 fails with HTTP
status 500 while its body carries the declared output field vid, and the
request body of step 2 nevertheless contains the value pulled from that
failed step, refuting the claim that outputs of a failed step are never
merged. -/
theorem C3_counterexample :
    ((runnerRun seqStopFalse c3Oracle c3Steps [] []).map (fun e =>
        match e.result with
        | StepResult.ok st _ => some st
        | StepResult.fail _ => none)) = [some 500, some 200] ∧
    (runnerRun seqStopFalse c3Oracle c3Steps [] []).map (fun e => e.requestBody) =
      [[], [("ref", Json.num 7)]] :=
  ⟨rfl, rfl⟩

/-- C3 amended: in the SequenceService sequential loop, outputs of a step
whose orchestration-level success is false are never merged into the
accumulated data; in IntegrationRunner.run the extracted outputs of a
step that obtained a response are merged whenever non-empty, with no
status test, while a network-failure step contributes nothing. -/
theorem C3_failed_step_output_merge (outputFields : List String)
    (outcome : SvcOutcome) (data : List (String × Json))
    (h : svcSuccess outcome = false) :
    svcExtractMerge outputFields outcome data = data ∧
    (∀ prev st extracted, runnerMergePrev prev (StepResult.ok st extracted) =
      if extracted.isEmpty then prev else aupdate prev extracted) ∧
    (∀ prev e, runnerMergePrev prev (StepResult.fail e) = prev) := by
  refine ⟨?_, fun prev st extracted => rfl, fun prev e => rfl⟩
  unfold svcExtractMerge
  rw [h]
  cases outputFields.isEmpty <;> simp

theorem C3_failed_step_output_merge_witness :
    svcSuccess (SvcOutcome.httpResp 500 (Json.obj [("vid", Json.num 7)])) = false ∧
    svcExtractMerge ["vid"] (SvcOutcome.httpResp 500 (Json.obj [("vid", Json.num 7)])) [] = [] :=
  ⟨rfl, (C3_failed_step_output_merge ["vid"]
    (SvcOutcome.httpResp 500 (Json.obj [("vid", Json.num 7)])) [] rfl).1⟩

/-- C4: the sequence-save endpoint accepts a parallel-mode payload whose
step declares a non-empty depends_on_fields and stores it unchanged; no
validation of depends_on_fields exists at save time, although the run
loop comment assumes dependencies were validated earlier. -/
theorem C4_parallel_dependencies_accepted :
    createIntegrationSequence c4Payload =
      Except.ok
        { name := "Parallel Seq"
          executionMode := "parallel"
          steps := [{ dependsOnFields := [("ref", "validation_id")], sequenceOrder := 1 }] } :=
  rfl

/-- C5 counterexample: for the path string consisting of just the dollar
strip, set is a no-op and get returns the whole root, so the get-set
round trip does not return the written value. -/
theorem C5_counterexample :
    ¬ (getFromPath (setToPath [] "$." (Json.num 1)) "$." = Json.num 1) :=
  fun h => Json.noConfusion h

/-- C5 amended: the get-set round trip returns the written value for
every path whose normalisation (optional dollar strip, split on dots,
empty segments dropped) has at least one segment; zero-segment paths are
the exception recorded in the counterexample. -/
theorem C5_get_set_roundtrip (data : List (String × Json)) (path : String)
    (v : Json) (h : normSegs path ≠ []) :
    getFromPath (setToPath data path v) path = v := by
  have hne : path ≠ "" := by
    intro he
    rw [he] at h
    exact h rfl
  unfold getFromPath setToPath
  rw [if_neg hne, if_neg hne]
  exact getSegs_setSegs (normSegs path) data v h

theorem C5_get_set_roundtrip_witness :
    normSegs "$.a.b" ≠ [] ∧
    getFromPath (setToPath [] "$.a.b" (Json.num 5)) "$.a.b" = Json.num 5 :=
  ⟨by decide, C5_get_set_roundtrip [] "$.a.b" (Json.num 5) (by decide)⟩

/-- C6: the split_name transformer is not total: a whitespace-only input
passes the falsy guard, strips and splits to zero tokens, and the final
branch indexes an empty list, so the IndexError propagates out of
transform_data, which re-raises after logging. -/
theorem C6_split_name_not_total :
    splitName "   " = Except.error "IndexError: list index out of range" ∧
    transformData [("full_name", Json.str "   ")] [splitNameMapping] =
      Except.error "IndexError: list index out of range" :=
  ⟨rfl, rfl⟩

/-- C9: when the primary step execution completes and the success-path
metrics update raises, RuntimeExecutor.execute_step returns a failure
response carrying the metrics error instead of the completed primary
result; with a healthy metrics update the same execution returns success.
The failure-path metrics outcome never changes the response. -/
theorem C9_metrics_failure_changes_result :
    executeStepRuntime (some ⟨"active"⟩) (StageOutcome.ok [])
        (Json.obj [("ok", Json.bool true)]) (StageOutcome.raises "db write failed")
        (StageOutcome.ok ()) =
      ⟨false, some "db write failed", none⟩ ∧
    executeStepRuntime (some ⟨"active"⟩) (StageOutcome.ok [])
        (Json.obj [("ok", Json.bool true)]) (StageOutcome.ok ())
        (StageOutcome.ok ()) =
      ⟨true, none, some (Json.obj [("ok", Json.bool true)])⟩ ∧
    (∀ mf mf' : StageOutcome Unit,
      executeStepRuntime (some ⟨"active"⟩) (StageOutcome.ok [])
          (Json.obj [("ok", Json.bool true)]) (StageOutcome.raises "db write failed") mf =
        executeStepRuntime (some ⟨"active"⟩) (StageOutcome.ok [])
          (Json.obj [("ok", Json.bool true)]) (StageOutcome.raises "db write failed") mf') :=
  ⟨rfl, rfl, fun _ _ => rfl⟩

/-- C10 counterexample: the empty path string also normalises to zero
segments, yet get returns null for it rather than the whole root,
because of the early falsy-path guard. -/
theorem C10_counterexample :
    ¬ (getFromPath [("a", Json.num 1)] "" = Json.obj [("a", Json.num 1)]) :=
  fun h => Json.noConfusion h

/-- C10 amended: for every non-empty path string that normalises to zero
segments (such as the dollar strip alone or a lone dot) get returns the
entire root and set leaves the root unchanged; the empty string instead
returns null from get (set is still a no-op); and empty segments are
discarded, so a double-dot path addresses exactly the node of its
single-dot form for every root and value. -/
theorem C10_zero_segment_paths :
    (∀ data path, path ≠ "" → normSegs path = [] →
      getFromPath data path = Json.obj data) ∧
    (∀ data path v, normSegs path = [] → setToPath data path v = data) ∧
    getFromPath [("a", Json.num 1)] "" = Json.null ∧
    (∀ data v, getFromPath data "a..b" = getFromPath data "a.b" ∧
      setToPath data "a..b" v = setToPath data "a.b" v) := by
  refine ⟨?_, ?_, rfl, ?_⟩
  · intro data path hne hz
    unfold getFromPath
    rw [if_neg hne, hz]
    rfl
  · intro data path v hz
    by_cases hpe : path = ""
    · unfold setToPath
      rw [if_pos hpe]
    · unfold setToPath
      rw [if_neg hpe, hz]
      rfl
  · intro data v
    exact ⟨getFromPath_congr data "a..b" "a.b" (by decide) (by decide) (by decide),
      setToPath_congr data v "a..b" "a.b" (by decide) (by decide) (by decide)⟩

theorem C10_zero_segment_paths_witness :
    ("$." : String) ≠ "" ∧ normSegs "$." = [] ∧
    getFromPath [("a", Json.num 1)] "$." = Json.obj [("a", Json.num 1)] ∧
    setToPath [("a", Json.num 1)] "." (Json.num 2) = [("a", Json.num 1)] :=
  ⟨by decide, by decide,
    C10_zero_segment_paths.1 [("a", Json.num 1)] "$." (by decide) (by decide),
    C10_zero_segment_paths.2.1 [("a", Json.num 1)] "." (Json.num 2) (by decide)⟩

/-- C8 counterexample: a step with auth type basic_auth whose effective
auth config contains a username and password goes through the
IntegrationRunner header assembly with no Authorization header at all:
the runner has no basic_auth branch. -/
theorem C8_counterexample :
    alookup basicCfg "username" = some "u" ∧
    alookup basicCfg "password" = some "p" ∧
    ¬ (alookup (runnerBuildHeaders [] "basic_auth" basicCfg) "Authorization" =
        some ("Basic " ++ base64Encode (utf8Bytes ("u" ++ ":" ++ "p")))) :=
  ⟨rfl, rfl, fun h => Option.noConfusion h⟩

end PartnerIntegration

namespace PartnerIntegration

/-- C8 amended: the IntegrationService auth helper does set the basic
Authorization header from the base64 of username:password, but the
IntegrationRunner step executor has no basic_auth branch and leaves the
Authorization header unset for such steps whenever the step request
headers did not already carry one. -/
theorem C8_basic_auth_headers (cfg : List (String × String)) (u p : String)
    (hu : alookup cfg "username" = some u) (hp : alookup cfg "password" = some p) :
    svcGetAuthHeaders "basic_auth" cfg =
      [("Authorization", "Basic " ++ base64Encode (utf8Bytes (u ++ ":" ++ p)))] ∧
    ∀ requestHeaders authCfg, alookup requestHeaders "Authorization" = none →
      alookup (runnerBuildHeaders requestHeaders "basic_auth" authCfg)
        "Authorization" = none := by
  constructor
  · unfold svcGetAuthHeaders
    rw [if_neg (by decide : ¬("basic_auth" : String) = "api_key")]
    rw [if_neg (by decide : ¬("basic_auth" : String) = "bearer_token")]
    rw [if_pos (rfl : ("basic_auth" : String) = "basic_auth")]
    rw [hu, hp]
    rfl
  · intro rh acfg hnone
    unfold runnerBuildHeaders
    rw [if_neg (by decide :
      ¬(("basic_auth" : String) = "bearer_token" ∨ ("basic_auth" : String) = "bearer"))]
    rw [if_neg (by decide : ¬("basic_auth" : String) = "api_key")]
    rw [alookup_aupdate _ rh "Authorization" hnone]
    rfl

theorem C8_basic_auth_headers_witness :
    svcGetAuthHeaders "basic_auth" basicCfg =
      [("Authorization", "Basic " ++ base64Encode (utf8Bytes ("u" ++ ":" ++ "p")))] ∧
    alookup (runnerBuildHeaders [("X-Trace", "t1")] "basic_auth" basicCfg)
      "Authorization" = none ∧
    base64Encode (utf8Bytes ("u" ++ ":" ++ "p")) = "dTpw" :=
  ⟨(C8_basic_auth_headers basicCfg "u" "p" rfl rfl).1,
    (C8_basic_auth_headers basicCfg "u" "p" rfl rfl).2 [("X-Trace", "t1")] basicCfg rfl,
    by decide⟩

end PartnerIntegration

namespace PartnerIntegration

theorem svcCondLoop_skipped (oracle : Nat → SvcOutcome) (mappings : List TMapping)
    (cfg : List (Nat × List (String × Cond))) (soe : Bool) :
    ∀ steps i data e, e ∈ (svcCondLoop oracle mappings cfg soe steps i data).1 →
      e.skipped = true → e.httpCalls = 0 ∧ e.success = none := by
  intro steps
  induction steps with
  | nil =>
      intro i data e he hsk
      simp [svcCondLoop] at he
  | cons s rest ih =>
      intro i data e he hsk
      by_cases hex : shouldExecuteStep s data cfg = true
      · rcases htd : transformData data mappings with e0 | td0
        · cases soe with
          | false =>
              simp [svcCondLoop, hex, htd] at he
              rcases he with he | he
              · rw [he] at hsk
                simp at hsk
              · exact ih _ _ _ he hsk
          | true =>
              simp [svcCondLoop, hex, htd] at he
              rw [he] at hsk
              simp at hsk
        · cases hsucc : svcSuccess (oracle i) with
          | false =>
              cases soe with
              | false =>
                  simp [svcCondLoop, hex, htd, hsucc] at he
                  rcases he with he | he
                  · rw [he] at hsk
                    simp at hsk
                  · exact ih _ _ _ he hsk
              | true =>
                  simp [svcCondLoop, hex, htd, hsucc] at he
                  rw [he] at hsk
                  simp at hsk
          | true =>
              simp [svcCondLoop, hex, htd, hsucc] at he
              rcases he with he | he
              · rw [he] at hsk
                simp at hsk
              · exact ih _ _ _ he hsk
      · have hex2 : shouldExecuteStep s data cfg = false := by
          revert hex
          cases shouldExecuteStep s data cfg <;> simp
        simp [svcCondLoop, hex2] at he
        rcases he with he | he
        · rw [he]
          exact ⟨rfl, rfl⟩
        · exact ih _ _ _ he hsk

/-- C7: in conditional mode a step whose configured predicates evaluate
false on the accumulated data is recorded as skipped with the reason
string, causes zero HTTP calls, and the accumulated data is threaded
unchanged past it, so nothing it would have produced is merged; and every
skipped entry of any conditional run carries zero HTTP calls and no
success flag (not failed). -/
theorem C7_conditional_skip :
    (∀ oracle mappings cfg soe (s : SvcStep) rest i data,
      shouldExecuteStep s data cfg = false →
        svcCondLoop oracle mappings cfg soe (s :: rest) i data =
          (⟨s.id, true, some "Condition not met", none, none, 0⟩ ::
              (svcCondLoop oracle mappings cfg soe rest (i + 1) data).1,
            (svcCondLoop oracle mappings cfg soe rest (i + 1) data).2)) ∧
    (∀ oracle mappings cfg soe steps i data e,
      e ∈ (svcCondLoop oracle mappings cfg soe steps i data).1 →
        e.skipped = true → e.httpCalls = 0 ∧ e.success = none) := by
  constructor
  · intro oracle mappings cfg soe s rest i data h
    simp [svcCondLoop, h]
  · intro oracle mappings cfg soe steps i data e he hsk
    exact svcCondLoop_skipped oracle mappings cfg soe steps i data e he hsk

theorem C7_conditional_skip_witness :
    shouldExecuteStep c7Step c7Data c7Cfg = false ∧
    svcCondLoop c7Oracle [] c7Cfg true [c7Step] 0 c7Data =
      ([⟨1, true, some "Condition not met", none, none, 0⟩], c7Data) ∧
    (⟨1, true, some "Condition not met", none, none, 0⟩ : CondEntry).httpCalls = 0 ∧
    (⟨1, true, some "Condition not met", none, none, 0⟩ : CondEntry).success = none := by
  refine ⟨rfl, ?_, ?_, ?_⟩
  · exact C7_conditional_skip.1 c7Oracle [] c7Cfg true c7Step [] 0 c7Data rfl
  · exact (C7_conditional_skip.2 c7Oracle [] c7Cfg true [c7Step] 0 c7Data
      ⟨1, true, some "Condition not met", none, none, 0⟩ (List.Mem.head _) rfl).1
  · exact (C7_conditional_skip.2 c7Oracle [] c7Cfg true [c7Step] 0 c7Data
      ⟨1, true, some "Condition not met", none, none, 0⟩ (List.Mem.head _) rfl).2

end PartnerIntegration
